import Mathlib

/-!
Shallow embedding of src/main.py (whatsapp-media-date-to-exif).

Modelling conventions:
- Python strings are Lean strings; the digit character class of the regular
  expressions is modelled as an ASCII digit test, which agrees with it on
  every string handled by this program.
- A piexif-encoded metadata block is modelled by the Exif IFD mapping it
  encodes (piexif.dump and piexif.load are mutually inverse on such
  mappings); the empty byte-string is modelled by the empty mapping.
- A tag value is either a byte-string that decodes as UTF-8 (carried as the
  decoded text), a byte-string that fails to decode, or a non-bytes value;
  check_exif scans only the first kind, exactly as the isinstance check and
  the UnicodeDecodeError handler do in the source.
- The filesystem is a map from path to stored image, together with the set
  of created directories; a PIL image is its pixel payload together with
  the embedded metadata block it carries.
- re.search tries the pattern at every start position from left to right
  and returns the first match; this is modelled by scanFirst below.
-/

namespace WME

/-- ASCII digit test modelling the digit character class of the regular
expressions in main.py on the strings this program handles. -/
def isAsciiDigit (c : Char) : Bool := c.isDigit

/-- True when the character list starts with eight consecutive digits:
the anchored form of the date pattern of line 15 of main.py. -/
def headDigits8 (cs : List Char) : Bool :=
  decide (8 ≤ cs.length) && (cs.take 8).all isAsciiDigit

/-- Group an 8-digit match four-two-two as year, month, day, following the
named groups of the date pattern of line 15 of main.py. -/
def splitRun (cs : List Char) : String × String × String :=
  (String.mk (cs.take 4), String.mk ((cs.drop 4).take 2), String.mk ((cs.drop 6).take 2))

/-- Anchored matcher for the date pattern: eight consecutive digits at the
start of the list, returned as the year, month, day groups. -/
def matchDate (cs : List Char) : Option (String × String × String) :=
  if headDigits8 cs then some (splitRun cs) else none

/-- Anchored matcher for the time pattern of line 115 of main.py: the
literal letters a and t, a space, and three two-digit groups separated by
literal periods. -/
def matchTime : List Char → Option (String × String × String)
  | 'a' :: 't' :: ' ' :: h1 :: h2 :: '.' :: m1 :: m2 :: '.' :: s1 :: s2 :: _ =>
    if isAsciiDigit h1 && isAsciiDigit h2 && isAsciiDigit m1 && isAsciiDigit m2 &&
        isAsciiDigit s1 && isAsciiDigit s2 then
      some (String.mk [h1, h2], String.mk [m1, m2], String.mk [s1, s2])
    else none
  | _ => none

/-- Left-to-right search: try the anchored matcher at every start position
and return the first match found, as re.search does. -/
def scanFirst {α : Type} (m : List Char → Option α) : List Char → Option α
  | [] => none
  | c :: rest =>
    match m (c :: rest) with
    | some r => some r
    | none => scanFirst m rest

/-- Model of re.search with the date pattern of line 15 of main.py. -/
def searchDate (s : String) : Option (String × String × String) :=
  scanFirst matchDate s.data

/-- Model of re.search with the time pattern of line 115 of main.py. -/
def searchTime (s : String) : Option (String × String × String) :=
  scanFirst matchTime s.data

/-- Model of the boolean used on lines 103-104 of main.py: does re.search
with the date pattern find a match in the decoded tag value. -/
def hasDateRun (s : String) : Bool :=
  (searchDate s).isSome

/-- Model of os.path.join for the directory plus filename joins performed
by main.py (the directory argument never ends in a separator and the
filename is always relative there). -/
def pathJoin (dir name : String) : String :=
  dir ++ "/" ++ name

/-- Index of the last period in the character list, if any. -/
def lastDotIdx (cs : List Char) : Option Nat :=
  ((List.range cs.length).filter (fun i => cs.getD i ' ' == '.')).getLast?

/-- Model of os.path.splitext on a bare filename: split at the last period
provided some earlier character is not a period; otherwise the extension is
empty. -/
def splitext (s : String) : String × String :=
  match lastDotIdx s.data with
  | none => (s, "")
  | some i =>
    if (s.data.take i).any (fun c => !(c == '.')) then
      (String.mk (s.data.take i), String.mk (s.data.drop i))
    else (s, "")

/-- Lines 155-159 of main.py: the disambiguated filename, built from
os.path.splitext and the format string inserting an underscore and the
counter before the extension. The counter is always 1 at that point; the
increment on line 160 is dead code, its value is never used. -/
def disambName (filename : String) : String :=
  (splitext filename).1 ++ "_1" ++ (splitext filename).2

/-- Python string interpolation of an optional string: None prints as the
text None, a string prints as itself. -/
def pyStr : Option String → String
  | some s => s
  | none => "None"

/-- A value stored under a tag of the Exif IFD mapping. -/
inductive TagValue : Type
  | bytesUtf8 (s : String)
  | bytesInvalid
  | nonBytes
deriving DecidableEq

/-- The Exif IFD mapping of a metadata block: tag identifier to value. -/
def ExifDict : Type := List (Nat × TagValue)

instance : DecidableEq ExifDict := by
  unfold ExifDict
  infer_instance

/-- Tag identifier piexif.ExifIFD.DateTimeOriginal. -/
def DateTimeOriginalTag : Nat := 36867

/-- Tag identifier piexif.ExifIFD.DateTimeDigitized. -/
def DateTimeDigitizedTag : Nat := 36868

/-- A stored image: pixel payload plus the embedded metadata block, when
one is present. -/
structure Image : Type where
  payload : Nat
  exif : Option ExifDict
deriving DecidableEq

/-- The File dataclass of lines 24-34 of main.py. The parsed_date field is
a dynamically typed Python attribute compared against None on line 205, so
it is modelled as an optional string whose none stands for the Python None;
the dataclass default is the empty string, modelled as some of the empty
string. The exif_bytes field carries the piexif-encoded block, modelled by
the mapping it encodes, with the empty byte-string default modelled by the
empty mapping. -/
structure File : Type where
  filename : String := ""
  file_path : String := ""
  new_file_path : String := ""
  extension : String := ""
  parsed_date : Option String := some ""
  exif_bytes : ExifDict := []
deriving DecidableEq

/-- Exceptions that the modelled fragment of main.py can raise. -/
inductive PyError : Type
  | fileNotFound (path : String)
  | assertionError
deriving DecidableEq

instance {ε α : Type} [DecidableEq ε] [DecidableEq α] : DecidableEq (Except ε α) := fun x y =>
  match x, y with
  | .error a, .error b =>
    if h : a = b then .isTrue (by rw [h]) else .isFalse (by simp [h])
  | .ok a, .ok b =>
    if h : a = b then .isTrue (by rw [h]) else .isFalse (by simp [h])
  | .error _, .ok _ => .isFalse (fun h => by cases h)
  | .ok _, .error _ => .isFalse (fun h => by cases h)

/-- Filesystem state threaded through the pipeline: stored files, created
directories, and whether the image handle opened on line 198 of main.py has
been closed. -/
structure FsState : Type where
  files : String → Option Image
  dirs : String → Bool
  imgClosed : Bool

/-- The command line arguments of lines 37-51 of main.py. -/
structure Args : Type where
  input_path : String := ""
  output_path : String := ""
  recursive : Bool := false
  overwrite : Bool := false
  keep_original_path : Bool := false

/-- Lines 78-87 of main.py: open the file at file_path, take its embedded
exif section if any, and decode its Exif IFD. A missing file raises; a file
without an exif section yields no data. -/
def export_exif_data (fs : String → Option Image) (file : File) :
    Except PyError (Option ExifDict) :=
  match fs file.file_path with
  | none => .error (.fileNotFound file.file_path)
  | some im => .ok im.exif

/-- Lines 90-109 of main.py: report whether the file carries a tag whose
value is a byte-string that decodes as UTF-8 and contains an 8-digit run.
An empty mapping makes the data variable falsy and the loop body never
runs, so the answer is no. -/
def check_exif (fs : String → Option Image) (file : File) : Except PyError Bool :=
  match export_exif_data fs file with
  | .error e => .error e
  | .ok none => .ok false
  | .ok (some data) =>
    .ok (data.any (fun tv =>
      match tv.2 with
      | .bytesUtf8 s => hasDateRun s
      | .bytesInvalid => false
      | .nonBytes => false))

/-- Lines 112-130 of main.py: search the filename for the date pattern and
the time pattern; on a date match, store year:month:day followed by the
matched time or the default 00:00:00; on no date match, return the file
unchanged. -/
def parse_filename_to_date (file : File) : File :=
  let date_match := searchDate file.filename
  let time_match := searchTime file.filename
  match date_match with
  | some (y, m, d) =>
    let date_str := y ++ ":" ++ m ++ ":" ++ d
    let time_str :=
      match time_match with
      | some (h, mi, s) => h ++ ":" ++ mi ++ ":" ++ s
      | none => "00:00:00"
    { file with parsed_date := some (date_str ++ " " ++ time_str) }
  | none => file

/-- Lines 132-142 of main.py: build the new Exif IFD mapping. The
interpolation appends a space and 00:00:00 to the already complete
parsed_date string, and both date tags receive the same UTF-8 encoded
value. The function touches no filesystem state. -/
def new_image_exif_data (file : File) : File × ExifDict :=
  let date_time := pyStr file.parsed_date ++ " 00:00:00"
  let exif_bytes : ExifDict :=
    [(DateTimeOriginalTag, .bytesUtf8 date_time),
     (DateTimeDigitizedTag, .bytesUtf8 date_time)]
  ({ file with exif_bytes := exif_bytes }, exif_bytes)

/-- Outcome of save_exif_data: the early return of line 151, a normal
return of the file, a failed post-write assertion (line 172), or a raised
exception. -/
inductive SaveOutcome : Type
  | aborted
  | saved (file : File)
  | assertFailed
  | failed (e : PyError)
deriving DecidableEq

/-- Lines 155-172 of main.py, after the collision handling: compute the
disambiguated path, save the image with the synthesized block to the source
path when keep_original_path is set and to the disambiguated path
otherwise, update new_file_path in the latter case, close the image handle,
and run the post-write assertion check_exif on the same File value (whose
file_path still names the source). -/
def writeStamped (st : FsState) (file : File) (img : Image) (output_path : String)
    (keep_original_path : Bool) : FsState × SaveOutcome :=
  let new_file_path1 := pathJoin output_path (disambName file.filename)
  let file1 := if keep_original_path then file
               else { file with new_file_path := new_file_path1 }
  let target := if keep_original_path then file.file_path else new_file_path1
  let st1 : FsState :=
    { st with
      files := fun p =>
        if p = target then some { payload := img.payload, exif := some file.exif_bytes }
        else st.files p,
      imgClosed := true }
  (st1,
    match check_exif st1.files file1 with
    | .error e => .failed e
    | .ok true => .saved file1
    | .ok false => .assertFailed)

/-- Lines 145-174 of main.py: create the output directory, compute the
naive destination, abort on a collision without overwrite, remove the
existing file on a collision with overwrite, then write the stamped
result. -/
def save_exif_data (st : FsState) (file : File) (img : Image) (output_path : String)
    (overwrite keep_original_path : Bool) : FsState × SaveOutcome :=
  let st1 : FsState :=
    { st with dirs := fun p => if p = output_path then true else st.dirs p }
  let new_file_path := pathJoin output_path file.filename
  if (st1.files new_file_path).isSome then
    if overwrite then
      writeStamped
        { st1 with files := fun p => if p = new_file_path then none else st1.files p }
        file img output_path keep_original_path
    else (st1, .aborted)
  else writeStamped st1 file img output_path keep_original_path

/-- Result of process_file when it returns without raising. -/
inductive ProcResult : Type
  | skippedHasDate (file : File)
  | skippedNoDate (file : File)
  | completed (file : File)
deriving DecidableEq

/-- Lines 197-218 of main.py: open the image, skip when check_exif reports
an existing date, parse the filename, return early only when parsed_date is
the Python None, synthesize the block, and save. A failed post-write
assertion surfaces as an AssertionError; the aborted save falls through to
the success logging exactly as the source does. -/
def process_file (st : FsState) (file : File) (args : Args) :
    FsState × Except PyError ProcResult :=
  match st.files file.file_path with
  | none => (st, .error (.fileNotFound file.file_path))
  | some im =>
    match check_exif st.files file with
    | .error e => (st, .error e)
    | .ok true => (st, .ok (.skippedHasDate file))
    | .ok false =>
      let file1 := parse_filename_to_date file
      if file1.parsed_date.isNone then (st, .ok (.skippedNoDate file1))
      else
        let file2 := (new_image_exif_data file1).1
        match save_exif_data st file2 im args.output_path args.overwrite
            args.keep_original_path with
        | (st1, .aborted) => (st1, .ok (.completed file2))
        | (st1, .saved f) => (st1, .ok (.completed f))
        | (st1, .assertFailed) => (st1, .error .assertionError)
        | (st1, .failed e) => (st1, .error e)

/-- One entry of the per-file status output of the loop of lines 182-192 of
main.py: either the normal completion of a file, or the error branch of
line 192, recorded together with the file path that the status line of line
186 put in context for that iteration. -/
inductive LogEntry : Type
  | done (r : ProcResult)
  | errorLogged (filePath : String) (e : PyError)
deriving DecidableEq

/-- Build the log entry of one loop iteration from the process_file result:
the except branch of lines 191-192 converts any exception into a logged
message and the loop continues. -/
def logOf (f : File) : Except PyError ProcResult → LogEntry
  | .error e => .errorLogged f.file_path e
  | .ok r => .done r

/-- The per-file loop of lines 182-194 of main.py over an already
discovered list of files: process each file inside the per-file exception
boundary and record one log entry per file. -/
def mainLoop (args : Args) : FsState → List File → FsState × List LogEntry
  | st, [] => (st, [])
  | st, f :: rest =>
    let pr := process_file st f args
    let r := mainLoop args pr.1 rest
    (r.1, logOf f pr.2 :: r.2)

/-- Reference definition following the spec wording for the Parser: the
position of the first (leftmost) 8-digit run in the string, as the least
start index carrying eight consecutive digits. -/
def specFirstDateIdx (s : String) : Option Nat :=
  (List.range s.data.length).find? (fun i => headDigits8 (s.data.drop i))

/-- Reference definition following the spec wording for the Parser: the
first 8-digit run of the filename split as YYYY, MM, DD, with no calendar
validation; none when no such run exists. -/
def specFirstDate (s : String) : Option (String × String × String) :=
  match specFirstDateIdx s with
  | some i => some (splitRun (s.data.drop i))
  | none => none

/-- Reference definition following the spec wording for the Parser time
field: HH:MM:SS taken from the leftmost occurrence of the literal pattern
at HH.MM.SS in the filename, and 00:00:00 when the filename contains no
such occurrence. -/
def specTimeStr (s : String) : String :=
  match (List.range s.data.length).find? (fun i => (matchTime (s.data.drop i)).isSome) with
  | some i =>
    match matchTime (s.data.drop i) with
    | some (h, m, sec) => h ++ ":" ++ m ++ ":" ++ sec
    | none => "00:00:00"
  | none => "00:00:00"

/-- Reference predicate following the spec wording for the Synthesizer
value format YYYY:MM:DD HH:MM:SS: nineteen characters, digit fields
separated by colons and a single space. -/
def isDateTimeFormat (s : String) : Bool :=
  match s.data with
  | [y1, y2, y3, y4, c1, o1, o2, c2, d1, d2, sp, h1, h2, c3, i1, i2, c4, e1, e2] =>
    ([y1, y2, y3, y4, o1, o2, d1, d2, h1, h2, i1, i2, e1, e2].all isAsciiDigit)
      && (c1 == ':') && (c2 == ':') && (sp == ' ') && (c3 == ':') && (c4 == ':')
  | _ => false

/-- Concrete scenario: a WhatsApp style image file with a date-bearing
filename and no embedded metadata. -/
def waFile : File :=
  { filename := "IMG-20230615-WA0001.jpg", file_path := "in/IMG-20230615-WA0001.jpg",
    extension := "jpg" }

/-- Concrete scenario: the in-memory image handle opened for waFile. -/
def waImg : Image := { payload := 3, exif := none }

/-- Concrete scenario: a filesystem holding only waFile, with an empty
output directory. -/
def fsWa : FsState :=
  { files := fun p => if p = "in/IMG-20230615-WA0001.jpg" then some waImg else none,
    dirs := fun _ => false,
    imgClosed := false }

/-- Concrete scenario: arguments with input directory in, output directory
out, and all flags left at their defaults. -/
def argsWa : Args := { input_path := "in", output_path := "out" }

/-- Concrete scenario: an image file whose filename carries no 8-digit
run. -/
def photoFile : File :=
  { filename := "photo.jpg", file_path := "in/photo.jpg", extension := "jpg" }

/-- Concrete scenario: a filesystem holding only photoFile, with an empty
output directory. -/
def fsPhoto : FsState :=
  { files := fun p => if p = "in/photo.jpg" then some { payload := 7, exif := none } else none,
    dirs := fun _ => false,
    imgClosed := false }

/-- Concrete scenario: a file that already went through parsing and
synthesis, about to be saved. -/
def fileA : File :=
  { filename := "a.jpg", file_path := "in/a.jpg", extension := "jpg",
    parsed_date := some "2023:06:15 00:00:00",
    exif_bytes :=
      [(DateTimeOriginalTag, .bytesUtf8 "2023:06:15 00:00:00 00:00:00"),
       (DateTimeDigitizedTag, .bytesUtf8 "2023:06:15 00:00:00 00:00:00")] }

/-- Concrete scenario: the in-memory image handle opened for fileA. -/
def imgA : Image := { payload := 1, exif := none }

/-- Concrete scenario: a filesystem where the naive destination of fileA in
the output directory is already occupied. -/
def fsCollision : FsState :=
  { files := fun p =>
      if p = "in/a.jpg" then some imgA
      else if p = "out/a.jpg" then some { payload := 2, exif := none }
      else none,
    dirs := fun _ => false,
    imgClosed := false }

/-! ### Helper lemmas -/

theorem mk_append (a b : List Char) : String.mk a ++ String.mk b = String.mk (a ++ b) := rfl

theorem string_mk_data (s : String) : String.mk s.data = s := by
  cases s
  rfl

theorem splitext_concat (s : String) : (splitext s).1 ++ (splitext s).2 = s := by
  unfold splitext
  cases h : lastDotIdx s.data with
  | none => exact String.append_empty s
  | some i =>
    by_cases hc : (s.data.take i).any (fun c => !(c == '.')) = true
    · simp only [hc, if_true]
      rw [mk_append, List.take_append_drop, string_mk_data]
    · simp only [hc, if_false]
      exact String.append_empty s

theorem disambName_length (s : String) : (disambName s).length = s.length + 2 := by
  have h : (splitext s).1.length + (splitext s).2.length = s.length := by
    have hx := congrArg String.length (splitext_concat s)
    rwa [String.length_append] at hx
  have h2 : ("_1" : String).length = 2 := rfl
  unfold disambName
  rw [String.length_append, String.length_append, h2]
  omega

theorem pathJoin_disamb_ne (out s : String) : pathJoin out (disambName s) ≠ pathJoin out s := by
  intro h
  have hlen := congrArg String.length h
  unfold pathJoin at hlen
  rw [String.length_append, String.length_append, String.length_append,
    String.length_append, disambName_length] at hlen
  omega

theorem scanFirst_eq {α : Type} (m : List Char → Option α) (cs : List Char) :
    scanFirst m cs =
      match (List.range cs.length).find? (fun i => (m (cs.drop i)).isSome) with
      | some i => m (cs.drop i)
      | none => none := by
  induction cs with
  | nil => rfl
  | cons c rest ih =>
    cases h : m (c :: rest) with
    | some r =>
      simp only [scanFirst, h, List.length_cons, List.range_succ_eq_map, List.find?_cons,
        List.drop_zero, Option.isSome_some]
    | none =>
      simp only [scanFirst, h, List.length_cons, List.range_succ_eq_map, List.find?_cons,
        List.drop_zero, Option.isSome_none, List.find?_map]
      rw [ih]
      have hq : ((fun i => (m ((c :: rest).drop i)).isSome) ∘ Nat.succ)
          = (fun i => (m (rest.drop i)).isSome) := by
        funext i
        simp [List.drop_succ_cons]
      rw [hq]
      cases hf : (List.range rest.length).find? (fun i => (m (rest.drop i)).isSome) with
      | none => rfl
      | some i => simp [List.drop_succ_cons]

theorem matchDate_isSome (cs : List Char) : (matchDate cs).isSome = headDigits8 cs := by
  unfold matchDate
  cases h : headDigits8 cs <;> simp [h]

theorem searchDate_eq_spec (s : String) : searchDate s = specFirstDate s := by
  unfold searchDate specFirstDate specFirstDateIdx
  rw [scanFirst_eq]
  simp only [matchDate_isSome]
  cases hf : (List.range s.data.length).find? (fun i => headDigits8 (s.data.drop i)) with
  | none => rfl
  | some i =>
    have hp := List.find?_some hf
    simp only [matchDate, hp, if_true]

theorem searchTime_eq_spec (s : String) :
    (match searchTime s with
      | some (h, mi, sec) => h ++ ":" ++ mi ++ ":" ++ sec
      | none => "00:00:00") = specTimeStr s := by
  unfold searchTime specTimeStr
  rw [scanFirst_eq]
  cases hf : (List.range s.data.length).find? (fun i => (matchTime (s.data.drop i)).isSome) with
  | none => rfl
  | some i => rfl

theorem save_abort_eq (st : FsState) (file : File) (img : Image) (out : String) (kop : Bool)
    (h1 : (st.files (pathJoin out file.filename)).isSome = true) :
    save_exif_data st file img out false kop =
      ({ st with dirs := fun p => if p = out then true else st.dirs p }, .aborted) := by
  unfold save_exif_data
  simp [h1]

theorem save_files_char (st : FsState) (file : File) (img : Image) (out : String)
    (ow kop : Bool)
    (h : (st.files (pathJoin out file.filename)).isSome = true → ow = true) :
    ∀ p, ((save_exif_data st file img out ow kop).1).files p =
      (if p = (if kop then file.file_path else pathJoin out (disambName file.filename)) then
        some { payload := img.payload, exif := some file.exif_bytes }
      else if p = pathJoin out file.filename ∧
          (st.files (pathJoin out file.filename)).isSome = true then
        none
      else st.files p) := by
  intro p
  unfold save_exif_data writeStamped
  by_cases hex : (st.files (pathJoin out file.filename)).isSome = true
  · rw [h hex]
    simp only [hex, if_true, and_true]
  · simp [hex]

theorem save_dirs_out (st : FsState) (file : File) (img : Image) (out : String)
    (ow kop : Bool) :
    ((save_exif_data st file img out ow kop).1).dirs out = true := by
  unfold save_exif_data writeStamped
  by_cases hex : (st.files (pathJoin out file.filename)).isSome = true
  · cases ow <;> simp [hex]
  · simp [hex]

/-! ### Claim theorems -/

/-- C3: the Filename Date Parser equals the reference definition: when the
filename contains an 8-digit run, parsed_date becomes exactly the first
such run split as YYYY, MM, DD (uncorrected), joined with the time field,
which is HH:MM:SS from the at HH.MM.SS pattern when present and 00:00:00
otherwise; when the filename lacks an 8-digit run the file is returned
unchanged, so the parsed date stays empty. -/
theorem c3_parse_refines_spec (f : File) :
    parse_filename_to_date f =
      (match specFirstDate f.filename with
      | some (y, m, d) =>
        { f with
          parsed_date := some (y ++ ":" ++ m ++ ":" ++ d ++ " " ++ specTimeStr f.filename) }
      | none => f) := by
  unfold parse_filename_to_date
  rw [searchDate_eq_spec]
  cases hd : specFirstDate f.filename with
  | none => rfl
  | some ymd =>
    obtain ⟨y, m, d⟩ := ymd
    dsimp only
    rw [searchTime_eq_spec]

/-- C4: per-file failure isolation: the orchestrator loop produces exactly
one log entry per discovered file, every exception becoming an error entry
recorded with the file path of the failing file, and the loop always runs
to the end of the list. -/
theorem c4_failure_isolation (args : Args) (st : FsState) (files : List File) :
    List.Forall₂ (fun (f : File) (e : LogEntry) =>
        match e with
        | .errorLogged p _ => p = f.file_path
        | .done _ => True)
      files ((mainLoop args st files).2) ∧
    ((mainLoop args st files).2).length = files.length := by
  induction files generalizing st with
  | nil => exact ⟨.nil, rfl⟩
  | cons f rest ih =>
    refine ⟨.cons ?_ (ih _).1, ?_⟩
    · cases hpr : (process_file st f args).2 with
      | error e => simp [mainLoop, logOf, hpr]
      | ok r => simp [mainLoop, logOf, hpr]
    · simpa [mainLoop] using (ih ((process_file st f args).1)).2

/-- C1: code bug. The spec (and the assertion on line 172 of main.py)
demand that the Inspector, re-run after a metadata block has been written,
reports that a date is present. On a fresh WhatsApp-named image the
pipeline does write the block to the output path, but the 8-digit scan of
check_exif finds no run of eight consecutive digits in the colon-separated
stored value, so the Inspector run on the freshly stamped output reports
false and the post-write assertion of the source always fails, both with
the default flags and with keep_original_path. -/
theorem c1_postwrite_verification_fails :
    (process_file fsWa waFile argsWa).2 = .error .assertionError ∧
    ((process_file fsWa waFile argsWa).1).files (pathJoin "out" (disambName waFile.filename)) =
      some { payload := waImg.payload,
             exif := some [(DateTimeOriginalTag, .bytesUtf8 "2023:06:15 00:00:00 00:00:00"),
                           (DateTimeDigitizedTag, .bytesUtf8 "2023:06:15 00:00:00 00:00:00")] } ∧
    check_exif ((process_file fsWa waFile argsWa).1).files
        { waFile with file_path := pathJoin "out" (disambName waFile.filename) } = .ok false ∧
    (process_file fsWa waFile { argsWa with keep_original_path := true }).2 =
      .error .assertionError := by
  decide

/-- C2: code bug. The spec demands a silent skip with no write for a
filename lacking an 8-digit run, and the guard on line 205 of main.py shows
that intent, but the parser leaves parsed_date at the empty string rather
than None, so the guard never fires: the block is synthesized and the write
is performed, as the output file existing below shows. -/
theorem c2_nodate_file_still_written :
    searchDate photoFile.filename = none ∧
    (parse_filename_to_date photoFile).parsed_date = some "" ∧
    (parse_filename_to_date photoFile).parsed_date.isNone = false ∧
    (((process_file fsPhoto photoFile argsWa).1).files
      (pathJoin "out" (disambName photoFile.filename))).isSome = true := by
  decide

/-- C5 counterexample: with a file occupying the naive destination and
overwrite set, but keep_original_path also set, the existing file is
removed yet no new file is written at the underscore-one suffixed path: the
stamped result lands on the source path instead, refuting the claim that
the new file is written at the suffixed path for every file. -/
theorem c5_collision_policy_cex :
    (fsCollision.files (pathJoin "out" fileA.filename)).isSome = true ∧
    ((save_exif_data fsCollision fileA imgA "out" true true).1).files "out/a.jpg" = none ∧
    ((save_exif_data fsCollision fileA imgA "out" true true).1).files
      (pathJoin "out" (disambName fileA.filename)) = none ∧
    ((save_exif_data fsCollision fileA imgA "out" true true).1).files "in/a.jpg" =
      some { payload := imgA.payload, exif := some fileA.exif_bytes } := by
  decide

/-- C5 (amended): collision policy of save_exif_data, for every file whose
naive destination is occupied: with overwrite false the write is aborted
and the filesystem is untouched; with overwrite true the existing file is
removed first and the new file is written at the underscore-one suffixed
path when keepOriginalPath is false, and over the source path when
keepOriginalPath is true. -/
theorem c5_collision_policy_amended (st : FsState) (file : File) (img : Image)
    (out : String) (ow kop : Bool)
    (hex : (st.files (pathJoin out file.filename)).isSome = true) :
    (ow = false →
      (save_exif_data st file img out ow kop).2 = .aborted ∧
      ∀ p, ((save_exif_data st file img out ow kop).1).files p = st.files p) ∧
    (ow = true → kop = false →
      ((save_exif_data st file img out ow kop).1).files
          (pathJoin out (disambName file.filename)) =
        some { payload := img.payload, exif := some file.exif_bytes } ∧
      ((save_exif_data st file img out ow kop).1).files (pathJoin out file.filename) = none) ∧
    (ow = true → kop = true →
      ((save_exif_data st file img out ow kop).1).files file.file_path =
        some { payload := img.payload, exif := some file.exif_bytes } ∧
      (file.file_path ≠ pathJoin out file.filename →
        ((save_exif_data st file img out ow kop).1).files (pathJoin out file.filename) =
          none)) := by
  refine ⟨?_, ?_, ?_⟩
  · rintro rfl
    rw [save_abort_eq st file img out kop hex]
    exact ⟨rfl, fun p => rfl⟩
  · rintro rfl rfl
    have hch := save_files_char st file img out true false (fun _ => rfl)
    refine ⟨?_, ?_⟩
    · rw [hch]
      simp
    · rw [hch]
      have hne : pathJoin out file.filename ≠ pathJoin out (disambName file.filename) :=
        fun hh => pathJoin_disamb_ne out file.filename hh.symm
      simp [hne, hex]
  · rintro rfl rfl
    have hch := save_files_char st file img out true true (fun _ => rfl)
    refine ⟨?_, ?_⟩
    · rw [hch]
      simp
    · intro hne
      rw [hch]
      have hne2 : pathJoin out file.filename ≠ file.file_path := fun hh => hne hh.symm
      simp [hne2, hex]

theorem c5_collision_policy_amended_witness :
    (fsCollision.files (pathJoin "out" fileA.filename)).isSome = true ∧
    (((save_exif_data fsCollision fileA imgA "out" true false).1).files
        (pathJoin "out" (disambName fileA.filename)) =
      some { payload := imgA.payload, exif := some fileA.exif_bytes } ∧
     ((save_exif_data fsCollision fileA imgA "out" true false).1).files
        (pathJoin "out" fileA.filename) = none) :=
  ⟨by decide,
   (c5_collision_policy_amended fsCollision fileA imgA "out" true false (by decide)).2.1 rfl rfl⟩

/-- C6 counterexample: the parsed date of fileA is well formed, yet the
Synthesizer emits both tags with the value carrying a second, redundant
time-of-day suffix, which is not of the form YYYY:MM:DD HH:MM:SS. -/
theorem c6_synthesizer_format_cex :
    isDateTimeFormat (pyStr fileA.parsed_date) = true ∧
    (new_image_exif_data fileA).2 =
      [(DateTimeOriginalTag, .bytesUtf8 "2023:06:15 00:00:00 00:00:00"),
       (DateTimeDigitizedTag, .bytesUtf8 "2023:06:15 00:00:00 00:00:00")] ∧
    isDateTimeFormat "2023:06:15 00:00:00 00:00:00" = false := by
  decide

/-- C6 (amended): the Metadata Synthesizer, given a MediaFile whose
parsedDate is set, produces a block with exactly two fields, date/time
original and date/time digitized, both set to the same value, and that
value is the parsed date/time with a redundant space and 00:00:00 suffix
appended (the form YYYY:MM:DD HH:MM:SS 00:00:00 for parser-produced
dates); the function takes no filesystem state and performs no filesystem
side effect. -/
theorem c6_synthesizer_amended (f : File) (pd : String) (h : f.parsed_date = some pd) :
    new_image_exif_data f =
      ({ f with exif_bytes :=
          [(DateTimeOriginalTag, .bytesUtf8 (pd ++ " 00:00:00")),
           (DateTimeDigitizedTag, .bytesUtf8 (pd ++ " 00:00:00"))] },
       [(DateTimeOriginalTag, .bytesUtf8 (pd ++ " 00:00:00")),
        (DateTimeDigitizedTag, .bytesUtf8 (pd ++ " 00:00:00"))]) := by
  simp only [new_image_exif_data, h, pyStr]

theorem c6_synthesizer_amended_witness :
    fileA.parsed_date = some "2023:06:15 00:00:00" ∧
    new_image_exif_data fileA =
      ({ fileA with exif_bytes :=
          [(DateTimeOriginalTag, .bytesUtf8 ("2023:06:15 00:00:00" ++ " 00:00:00")),
           (DateTimeDigitizedTag, .bytesUtf8 ("2023:06:15 00:00:00" ++ " 00:00:00"))] },
       [(DateTimeOriginalTag, .bytesUtf8 ("2023:06:15 00:00:00" ++ " 00:00:00")),
        (DateTimeDigitizedTag, .bytesUtf8 ("2023:06:15 00:00:00" ++ " 00:00:00"))]) :=
  ⟨rfl, c6_synthesizer_amended fileA "2023:06:15 00:00:00" rfl⟩

/-- C7: with keepOriginalPath true and a write that proceeds, the stamped
result is written over the original source path, every other path except
the naive destination keeps its old content (so the disambiguated path is
discarded), and no path other than the source gains a file it did not have
before: nothing new appears in the output directory. -/
theorem c7_keep_original_path_in_place (st : FsState) (file : File) (img : Image)
    (out : String) (ow : Bool)
    (h : ¬((st.files (pathJoin out file.filename)).isSome = true ∧ ow = false)) :
    ((save_exif_data st file img out ow true).1).files file.file_path =
      some { payload := img.payload, exif := some file.exif_bytes } ∧
    (∀ p, p ≠ file.file_path → p ≠ pathJoin out file.filename →
      ((save_exif_data st file img out ow true).1).files p = st.files p) ∧
    (∀ p, p ≠ file.file_path →
      (((save_exif_data st file img out ow true).1).files p).isSome = true →
      (st.files p).isSome = true) := by
  have hh : (st.files (pathJoin out file.filename)).isSome = true → ow = true := by
    intro hx
    cases ow with
    | false => exact absurd ⟨hx, rfl⟩ h
    | true => rfl
  have hch := save_files_char st file img out ow true hh
  refine ⟨?_, ?_, ?_⟩
  · rw [hch]
    simp
  · intro p hp1 hp2
    rw [hch]
    simp [hp1, hp2]
  · intro p hp1
    rw [hch]
    by_cases hpn : p = pathJoin out file.filename ∧
        (st.files (pathJoin out file.filename)).isSome = true
    · simp [hp1, hpn]
    · simp [hp1, hpn]

theorem c7_keep_original_path_witness :
    ¬((fsWa.files (pathJoin "out" waFile.filename)).isSome = true ∧ false = false) ∧
    ((save_exif_data fsWa waFile waImg "out" false true).1).files waFile.file_path =
      some { payload := waImg.payload, exif := some waFile.exif_bytes } :=
  ⟨by decide, (c7_keep_original_path_in_place fsWa waFile waImg "out" false (by decide)).1⟩

/-- C8: code bug. The spec invariant says the metadata block is only ever
set once a parsed date is set, but for a filename without an 8-digit run
the pipeline reaches the Synthesizer with parsed_date still the unset empty
string and fills exif_bytes with a non-empty block anyway (and the write of
that block is visible in the output directory). -/
theorem c8_metadata_without_parsed_date :
    (parse_filename_to_date photoFile).parsed_date = some "" ∧
    ((new_image_exif_data (parse_filename_to_date photoFile)).1).parsed_date = some "" ∧
    ((new_image_exif_data (parse_filename_to_date photoFile)).1).exif_bytes ≠
      ([] : ExifDict) ∧
    ((process_file fsPhoto photoFile argsWa).1).files
        (pathJoin "out" (disambName photoFile.filename)) =
      some { payload := 7,
             exif := some [(DateTimeOriginalTag, .bytesUtf8 " 00:00:00"),
                           (DateTimeDigitizedTag, .bytesUtf8 " 00:00:00")] } := by
  decide

/-- C9 counterexample: on the collision-abort path (existing file at the
naive destination, overwrite false) save_exif_data returns without closing
the image handle, refuting the claim that the handle is released on every
failure and skip path. -/
theorem c9_handle_open_cex :
    (fsCollision.files (pathJoin "out" fileA.filename)).isSome = true ∧
    (save_exif_data fsCollision fileA imgA "out" false false).2 = .aborted ∧
    ((save_exif_data fsCollision fileA imgA "out" false false).1).imgClosed = false := by
  decide

/-- C9 (amended): the image handle is closed by save_exif_data exactly on
the paths where the save is performed: after the write (before the
post-write assertion, hence also when that assertion fails), but on the
collision-abort path the function returns with the handle state
untouched, so an open handle stays open there. -/
theorem c9_handle_release_amended (st : FsState) (file : File) (img : Image)
    (out : String) (ow kop : Bool) :
    ((save_exif_data st file img out ow kop).1).imgClosed =
      (if (st.files (pathJoin out file.filename)).isSome = true ∧ ow = false then
        st.imgClosed
      else true) := by
  unfold save_exif_data writeStamped
  by_cases hex : (st.files (pathJoin out file.filename)).isSome = true
  · cases ow <;> simp [hex]
  · simp [hex]

/-- C10: even with keep_original_path true, save_exif_data first records
the output directory as created and applies the collision policy against
the naive destination in the output directory: with an occupied naive
destination and overwrite false, the in-place write is skipped entirely
and the filesystem is untouched; with overwrite true, the file at the
naive destination is deleted even though the stamped result is then
written to the source path. -/
theorem c10_collision_policy_inplace (st : FsState) (file : File) (img : Image)
    (out : String) (ow : Bool) :
    ((save_exif_data st file img out ow true).1).dirs out = true ∧
    ((st.files (pathJoin out file.filename)).isSome = true → ow = false →
      (save_exif_data st file img out ow true).2 = .aborted ∧
      ∀ p, ((save_exif_data st file img out ow true).1).files p = st.files p) ∧
    ((st.files (pathJoin out file.filename)).isSome = true → ow = true →
      file.file_path ≠ pathJoin out file.filename →
      ((save_exif_data st file img out ow true).1).files (pathJoin out file.filename) =
        none ∧
      ((save_exif_data st file img out ow true).1).files file.file_path =
        some { payload := img.payload, exif := some file.exif_bytes }) := by
  refine ⟨save_dirs_out st file img out ow true, ?_, ?_⟩
  · intro hex how
    subst how
    rw [save_abort_eq st file img out true hex]
    exact ⟨rfl, fun p => rfl⟩
  · intro hex how hne
    subst how
    have hch := save_files_char st file img out true true (fun _ => rfl)
    have hne2 : pathJoin out file.filename ≠ file.file_path := fun hh => hne hh.symm
    refine ⟨?_, ?_⟩
    · rw [hch]
      simp [hne2, hex]
    · rw [hch]
      simp

theorem c10_collision_policy_inplace_witness :
    ((fsCollision.files (pathJoin "out" fileA.filename)).isSome = true ∧
     fileA.file_path ≠ pathJoin "out" fileA.filename) ∧
    (((save_exif_data fsCollision fileA imgA "out" true true).1).files
        (pathJoin "out" fileA.filename) = none ∧
     ((save_exif_data fsCollision fileA imgA "out" true true).1).files fileA.file_path =
       some { payload := imgA.payload, exif := some fileA.exif_bytes }) :=
  ⟨⟨by decide, by decide⟩,
   (c10_collision_policy_inplace fsCollision fileA imgA "out" true).2.2
     (by decide) rfl (by decide)⟩

end WME
